import Mathlib

/-!
Shallow embedding of the dual-db-chatbot frontend core
(`ChatInterface.js`, `chatService.js`, `ResultsDisplay.js`) and proofs of
the spec claims about it.

JavaScript strings are modelled as Lean `String`; the handful of string
builtins the code uses (`includes`, `startsWith`, `trim`, `substring`,
`length`) are given explicit executable definitions over the character
list so that concrete instances reduce in the kernel.
-/

namespace DualDb

/-- Prefix test on character lists, mirroring `String.prototype.startsWith`
restricted to a pattern argument. -/
def startsWithL : List Char → List Char → Bool
  | [], _ => true
  | _ :: _, [] => false
  | p :: ps, c :: cs => p == c && startsWithL ps cs

/-- Substring occurrence test on character lists: true when the pattern
occurs contiguously. -/
def hasSub (pat : List Char) : List Char → Bool
  | [] => pat.isEmpty
  | c :: cs => startsWithL pat (c :: cs) || hasSub pat cs

/-- Model of `s.includes(pat)` from JavaScript. -/
def strContains (s pat : String) : Bool :=
  hasSub pat.data s.data

/-- Model of `s.startsWith(pat)` from JavaScript. -/
def strStarts (s pat : String) : Bool :=
  startsWithL pat.data s.data

/-- Model of `s.substring(0, n)` from JavaScript: the first `n` characters,
or the whole string when it is shorter. -/
def strTake (s : String) (n : Nat) : String :=
  ⟨s.data.take n⟩

/-- Model of `s.length` from JavaScript (character count). -/
def strLen (s : String) : Nat :=
  s.data.length

/-- Whitespace predicate used by the model of `String.prototype.trim`;
covers the whitespace characters that occur in chat input (space, tab,
newline, carriage return). -/
def isWS (c : Char) : Bool :=
  c == ' ' || c == '\t' || c == '\n' || c == '\r'

/-- Model of `s.trim()` from JavaScript: strip leading and trailing
whitespace. -/
def jsTrim (s : String) : String :=
  ⟨((s.data.dropWhile isWS).reverse.dropWhile isWS).reverse⟩

/-- Insert a thousands separator every three digits, working on a
reversed digit list. -/
def groupRev : List Char → List Char
  | a :: b :: c :: d :: rest => a :: b :: c :: ',' :: groupRev (d :: rest)
  | l => l

/-- Group the digits of a decimal numeral string in threes with commas,
as `Number.prototype.toLocaleString` does for the integer part. -/
def groupThousands (digits : List Char) : List Char :=
  (groupRev digits.reverse).reverse

/-- A JavaScript number as it appears in result payloads: sign, integer
part and decimal digits. The payload numbers the UI displays carry at
most three fractional digits, so `toLocaleString` (default locale, which
keeps up to three fraction digits) never rounds them. -/
structure JSNumber where
  neg : Bool
  intPart : Nat
  fracDigits : String
  deriving DecidableEq, Repr

/-- Model of `Number.prototype.toString` (via template/`.toString()`
coercion). -/
def JSNumber.toStr (n : JSNumber) : String :=
  (if n.neg then "-" else "") ++ Nat.repr n.intPart ++
    (if n.fracDigits = "" then "" else "." ++ n.fracDigits)

/-- Model of `Number.prototype.toLocaleString` (default en-US style):
thousands separators in the integer part, fraction kept as is. -/
def JSNumber.toLocale (n : JSNumber) : String :=
  (if n.neg then "-" else "") ++ ⟨groupThousands (Nat.repr n.intPart).data⟩ ++
    (if n.fracDigits = "" then "" else "." ++ n.fracDigits)

/-- A JSON value, the shape of the arbitrary records carried in
`timeline[i].items`. -/
inductive Json where
  | null : Json
  | bool (b : Bool) : Json
  | num (n : JSNumber) : Json
  | str (s : String) : Json
  | arr (l : List Json) : Json
  | obj (l : List (String × Json)) : Json

/-- Escape one character the way `JSON.stringify` does for the characters
that occur in the payloads (quote, backslash, newline, tab, carriage
return). -/
def escChar (c : Char) : List Char :=
  if c == '"' then ['\\', '"']
  else if c == '\\' then ['\\', '\\']
  else if c == '\n' then ['\\', 'n']
  else if c == '\t' then ['\\', 't']
  else if c == '\r' then ['\\', 'r']
  else [c]

/-- Escape a string body for JSON output. -/
def escStr (s : String) : String :=
  ⟨s.data.flatMap escChar⟩

mutual

/-- Model of compact `JSON.stringify(v)` (no space argument), with object
keys emitted in insertion order as JavaScript does. -/
def jsonStringify : Json → String
  | .null => "null"
  | .bool b => if b then "true" else "false"
  | .num n => n.toStr
  | .str s => "\"" ++ escStr s ++ "\""
  | .arr l => "[" ++ jsonStringifyList l ++ "]"
  | .obj l => "\x7b" ++ jsonStringifyObj l ++ "\x7d"

/-- Comma-joined serialization of a JSON array body. -/
def jsonStringifyList : List Json → String
  | [] => ""
  | [x] => jsonStringify x
  | x :: y :: xs => jsonStringify x ++ "," ++ jsonStringifyList (y :: xs)

/-- Comma-joined serialization of a JSON object body. -/
def jsonStringifyObj : List (String × Json) → String
  | [] => ""
  | [(k, v)] => "\"" ++ escStr k ++ "\":" ++ jsonStringify v
  | (k, v) :: e :: xs =>
      "\"" ++ escStr k ++ "\":" ++ jsonStringify v ++ "," ++ jsonStringifyObj (e :: xs)

end

/-- A scalar cell value inside a result row: string, number, null or
boolean (§3 of the spec, `results` rows). -/
inductive CellValue where
  | null : CellValue
  | str (s : String) : CellValue
  | num (n : JSNumber) : CellValue
  | bool (b : Bool) : CellValue
  deriving DecidableEq, Repr

/-- Model of `value.toString()` on a cell value. -/
def CellValue.toStr : CellValue → String
  | .null => "null"
  | .str s => s
  | .num n => n.toStr
  | .bool b => if b then "true" else "false"

/-- Model of `value.toLocaleString()` on a cell value: numbers gain
thousands separators, `String.prototype.toLocaleString` returns the
string itself, booleans stringify. -/
def CellValue.toLocale : CellValue → String
  | .null => "null"
  | .str s => s
  | .num n => n.toLocale
  | .bool b => if b then "true" else "false"

/-- JavaScript truthiness of a cell value (used by the
`metadata?.processing_time` check). -/
def CellValue.truthy : CellValue → Bool
  | .null => false
  | .str s => s ≠ ""
  | .num n => n.intPart ≠ 0 || n.fracDigits ≠ ""
  | .bool b => b

/-- A result row: a record mapping field names to scalar values, with the
field order of the underlying JavaScript object. -/
abbrev Row : Type := List (String × CellValue)

/-- Model of `row[col]`: `some` the first binding of the field, `none`
when the row lacks it (JavaScript `undefined`). -/
def rowGet (row : Row) (col : String) : Option CellValue :=
  match row.find? (fun kv => kv.1 == col) with
  | some kv => some kv.2
  | none => none

/-- An aggregation metric value: either a scalar or an ordered bucket
sequence (§3, `aggregations`). -/
inductive AggValue where
  | scalar (v : CellValue) : AggValue
  | buckets (l : List (String × JSNumber)) : AggValue
  deriving DecidableEq, Repr

/-- One timeline bucket: date label, count, optional item records. -/
structure TimelineBucket where
  date : String
  count : JSNumber
  items : Option (List Json)

/-- The backend result payload (`data` on a bot message), every field
optional; a present field models a key present on the JavaScript object. -/
structure ResultEnvelope where
  total_results : Option JSNumber := none
  sources : Option (List String) := none
  summary : Option String := none
  aggregations : Option (List (String × List (String × AggValue))) := none
  results : Option (List Row) := none
  timeline : Option (List TimelineBucket) := none
  metadata : Option Row := none

/-- Number of keys present on the envelope object, the model of
`Object.keys(data).length`. -/
def ResultEnvelope.presentKeys (e : ResultEnvelope) : Nat :=
  (if e.total_results.isSome then 1 else 0) +
  (if e.sources.isSome then 1 else 0) +
  (if e.summary.isSome then 1 else 0) +
  (if e.aggregations.isSome then 1 else 0) +
  (if e.results.isSome then 1 else 0) +
  (if e.timeline.isSome then 1 else 0) +
  (if e.metadata.isSome then 1 else 0)

/-- View modes held by the `viewMode` state of `ResultsDisplay`. -/
inductive ViewMode where
  | summary : ViewMode
  | table : ViewMode
  | timeline : ViewMode
  deriving DecidableEq, Repr

/-- Per-envelope presentation state of `ResultsDisplay`: the `viewMode`
and `showRawData` `useState` hooks. Defaults are `summary` and `false`. -/
structure PresentationState where
  viewMode : ViewMode := .summary
  showRawData : Bool := false
  deriving DecidableEq, Repr

/-- Model of the JavaScript `Set` insertion step `allKeys.add(key)` over
an insertion-ordered key list. -/
def addKeyJS (acc : List String) (k : String) : List String :=
  if acc.contains k then acc else acc ++ [k]

/-- Embedding of `getTableColumns` from `ResultsDisplay.js`: collect every
field name over the rows in order, skipping names that start with `_`,
deduplicated in insertion order, then keep the first 6. -/
def getTableColumns (results : List Row) : List String :=
  if results.isEmpty then []
  else
    let allKeys := results.foldl
      (fun acc row => row.foldl
        (fun acc kv => if strStarts kv.1 "_" then acc else addKeyJS acc kv.1) acc)
      []
    allKeys.take 6

/-- Uppercase a character following a word boundary, the action of the
regex replace `\b\w` with `toUpperCase`; word characters are letters,
digits and underscore. -/
def isWordChar (c : Char) : Bool :=
  c.isAlpha || c.isDigit || c == '_'

/-- Capitalize every word character that starts a word, given whether the
previous character was a word character. -/
def capWordsAux : Bool → List Char → List Char
  | _, [] => []
  | prevWord, c :: cs =>
      if isWordChar c && !prevWord then c.toUpper :: capWordsAux true cs
      else c :: capWordsAux (isWordChar c) cs

/-- Embedding of `formatColumnName`: underscores become spaces, then each
word is capitalized. -/
def formatColumnName (col : String) : String :=
  ⟨capWordsAux false (col.data.map (fun c => if c == '_' then ' ' else c))⟩

/-- Embedding of `formatAggregationLabel` (same transformation as
`formatColumnName`). -/
def formatAggregationLabel (key : String) : String :=
  formatColumnName key

/-- Embedding of `formatCellValue` from `ResultsDisplay.js`. The
JavaScript `new Date(value).toLocaleDateString()` call is abstracted as
the oracle `jsDate`: `some d` when the conversion yields `d`, `none` when
it throws (the `catch` branch returns the original string). The currency
branch keeps the source's operator precedence: in JavaScript
`typeof value === 'number' && column.includes('price') ||
column.includes('salary')` groups as `(number and price) or salary`. -/
def formatCellValue (jsDate : String → Option String)
    (value : Option CellValue) (column : String) : String :=
  match value with
  | none => "-"
  | some .null => "-"
  | some v =>
      if (match v with
                | .str s => strContains s "T" && strContains s "Z"
                | _ => false) then
        match v with
        | .str s => match jsDate s with
                    | some d => d
                    | none => s
        | _ => v.toStr
      else if ((match v with | .num _ => true | _ => false)
                && strContains column "price") || strContains column "salary" then
        "$" ++ v.toLocale
      else if (match v with
               | .str s => Nat.blt 50 (strLen s)
               | _ => false) then
        (match v with
         | .str s => strTake s 50 ++ "..."
         | _ => v.toStr)
      else v.toStr

/-- Embedding of `getColumnClass`: the semantic CSS class of a column. -/
def getColumnClass (column : String) : String :=
  if strContains column "price" || strContains column "salary"
      || strContains column "amount" then "currency"
  else if strContains column "date" || strContains column "time" then "date"
  else if strContains column "id" then "id"
  else ""

/-- Embedding of `formatValue` (scalar aggregation values): numbers via
`toLocaleString`, anything else rendered as is. -/
def formatValue (v : CellValue) : String :=
  match v with
  | .num n => n.toLocale
  | other => other.toStr

/-- Rendered summary section, the output shape of `renderSummary`:
which stats and blocks appear and with what content. -/
structure SummaryView where
  totalStat : Option JSNumber
  sourcesStat : Option String
  processedStat : Bool
  summaryText : Option String
  aggBlock : Option (List (String × List (String × AggValue)))

/-- Embedding of `renderSummary`: the count stat appears iff
`total_results !== undefined`, the sources stat iff `sources` is present
(joined with a comma separator), the processing stat iff
`metadata?.processing_time` is truthy, the summary paragraph iff
`summary` is present, and the key-metrics block iff `aggregations` is
present and has at least one key. -/
def renderSummary (e : ResultEnvelope) : SummaryView :=
  { totalStat := e.total_results
    sourcesStat := e.sources.map (fun ss => String.intercalate ", " ss)
    processedStat := match e.metadata with
                     | none => false
                     | some m => match rowGet m "processing_time" with
                                 | none => false
                                 | some v => v.truthy
    summaryText := e.summary
    aggBlock := match e.aggregations with
                | none => none
                | some aggs => if aggs.isEmpty then none else some aggs }

/-- One rendered aggregation entry: capitalized source, and per metric the
formatted label plus either the first 5 buckets or the formatted scalar. -/
def renderAggregations (e : ResultEnvelope) :
    Option (List (String × List (String × Sum (List (String × JSNumber)) String))) :=
  match e.aggregations with
  | none => none
  | some aggregations =>
      some (aggregations.map (fun sv =>
        (⟨capWordsAux false sv.1.data⟩,
         sv.2.map (fun kv =>
           (formatAggregationLabel kv.1,
            match kv.2 with
            | .buckets l => Sum.inl (l.take 5)
            | .scalar v => Sum.inr (formatValue v))))))

/-- The rendered table produced by `renderTable` when there are rows:
columns in order, their headers and classes, and the formatted cell
strings of each displayed row. -/
structure TableView where
  columns : List String
  headers : List String
  classes : List String
  cellRows : List (List String)
  shownCount : Nat
  totalCount : JSNumber
  deriving DecidableEq, Repr

/-- Output of `renderTable`: either the "No detailed results to display"
placeholder or a table. -/
inductive TableRender where
  | noResults : TableRender
  | table (t : TableView) : TableRender
  deriving DecidableEq, Repr

/-- Embedding of `renderTable` from `ResultsDisplay.js`: placeholder when
`results` is absent or empty; otherwise the first 10 rows are displayed
with columns from `getTableColumns` and cells from `formatCellValue`. -/
def renderTable (jsDate : String → Option String) (e : ResultEnvelope) :
    TableRender :=
  match e.results with
  | none => .noResults
  | some rs =>
      if rs.isEmpty then .noResults
      else
        let results := rs.take 10
        let columns := getTableColumns results
        .table
          { columns := columns
            headers := columns.map formatColumnName
            classes := columns.map getColumnClass
            cellRows := results.map (fun row =>
              columns.map (fun col => formatCellValue jsDate (rowGet row col) col))
            shownCount := results.length
            totalCount := match e.total_results with
                          | some n => n
                          | none => ⟨false, results.length, ""⟩ }

/-- One rendered timeline bucket: date label, count label, and the sample
strings shown beneath it. -/
structure RenderedBucket where
  date : String
  count : JSNumber
  samples : List String
  deriving DecidableEq, Repr

/-- Samples rendered for one timeline bucket: nothing when `items` is
absent or empty, else the first 2 items each serialized, truncated to 100
characters and suffixed with an unconditional ellipsis marker. -/
def renderBucket (b : TimelineBucket) : RenderedBucket :=
  { date := b.date
    count := b.count
    samples := match b.items with
               | none => []
               | some items =>
                   if items.isEmpty then []
                   else (items.take 2).map
                     (fun sample => strTake (jsonStringify sample) 100 ++ "...") }

/-- Embedding of `renderTimeline`: `none` (nothing rendered) when
`timeline` is absent or empty, else every bucket rendered in order. -/
def renderTimeline (e : ResultEnvelope) : Option (List RenderedBucket) :=
  match e.timeline with
  | none => none
  | some tl => if tl.isEmpty then none else some (tl.map renderBucket)

/-- The content area of `ResultsDisplay`: raw serialization of the whole
envelope when `showRawData` is set, else the view selected by
`viewMode`. -/
inductive ContentView where
  | raw (e : ResultEnvelope) : ContentView
  | summaryView (s : SummaryView) : ContentView
  | tableView (t : TableRender) : ContentView
  | timelineView (tl : Option (List RenderedBucket)) : ContentView

/-- Whether the button for a view mode is offered by the rendered
component: Summary always, Table iff `results` is present and non-empty,
Timeline iff `timeline` is present and non-empty. -/
def modeButtonShown (e : ResultEnvelope) : ViewMode → Bool
  | .summary => true
  | .table => match e.results with
              | none => false
              | some rs => !rs.isEmpty
  | .timeline => match e.timeline with
                 | none => false
                 | some tl => !tl.isEmpty

/-- The full rendered component: the offered mode buttons and the content
area. -/
structure DisplayView where
  buttons : List ViewMode
  content : ContentView

/-- Embedding of the `ResultsDisplay` component body: `none` when the
`data` prop is absent or the envelope has no keys (the two `return null`
guards), otherwise the header buttons plus the content chosen by the
presentation state. -/
def render (jsDate : String → Option String) (data : Option ResultEnvelope)
    (st : PresentationState) : Option DisplayView :=
  match data with
  | none => none
  | some e =>
      if e.presentKeys == 0 then none
      else
        some
          { buttons := [ViewMode.summary, ViewMode.table, ViewMode.timeline].filter
              (fun m => modeButtonShown e m)
            content :=
              if st.showRawData then .raw e
              else match st.viewMode with
                   | .summary => .summaryView (renderSummary e)
                   | .table => .tableView (renderTable jsDate e)
                   | .timeline => .timelineView (renderTimeline e) }

/-- User events the rendered component exposes: clicking an offered view
mode button, or clicking the raw-data toggle. -/
inductive UIEvent where
  | clickMode (m : ViewMode) : UIEvent
  | toggleRaw : UIEvent

/-- State transition of `ResultsDisplay` on a user event: a mode button
updates `viewMode` only when that button is offered (an ineligible mode
has no button, so the event is a no-op); the raw toggle flips
`showRawData` unconditionally. -/
def dispatch (e : ResultEnvelope) (st : PresentationState) :
    UIEvent → PresentationState
  | .clickMode m => if modeButtonShown e m then { st with viewMode := m } else st
  | .toggleRaw => { st with showRawData := !st.showRawData }

/-- The failure object axios hands to the response interceptor: an
optional transport error code, the optional HTTP status of
`error.response`, and the diagnostic message. -/
structure AxiosError where
  code : Option String
  status : Option Nat
  message : String
  deriving DecidableEq, Repr

/-- The stable error taxonomy produced by the response interceptor in
`chatService.js`; the first three kinds carry fixed user-facing strings
(see `GatewayError.message`), `unknown` carries the original error. -/
inductive GatewayError where
  | unreachable : GatewayError
  | serverError : GatewayError
  | notFound : GatewayError
  | unknown (message : String) : GatewayError
  deriving DecidableEq, Repr

/-- Message carried by each taxonomy kind: the fixed strings thrown by
the interceptor, or the original diagnostic for `unknown`. -/
def GatewayError.message : GatewayError → String
  | .unreachable => "Unable to connect to the server. Please make sure the backend is running."
  | .serverError => "Server error occurred. Please try again."
  | .notFound => "API endpoint not found."
  | .unknown m => m

/-- Embedding of the response interceptor's error branch in the
`ChatService` constructor: `ECONNREFUSED` becomes `unreachable`, HTTP
status exactly 500 becomes `serverError`, HTTP 404 becomes `notFound`,
and any other failure is rethrown unchanged as `unknown` with its
original message. -/
def normalizeError (e : AxiosError) : GatewayError :=
  if e.code == some "ECONNREFUSED" then .unreachable
  else if e.status == some 500 then .serverError
  else if e.status == some 404 then .notFound
  else .unknown e.message

/-- Outcome of a request through `apiClient`: the response interceptor
passes successes through and normalizes every failure centrally. -/
def interceptResponse {α : Type} (transport : Except AxiosError α) :
    Except GatewayError α :=
  match transport with
  | .ok a => .ok a
  | .error e => .error (normalizeError e)

/-- Routing flags inside `query_info` (which sources the backend used). -/
structure QueryRouting where
  use_elasticsearch : Bool
  use_postgresql : Bool

/-- Diagnostic summary of how the backend interpreted a query; read-only
display data. -/
structure QueryInfo where
  intent : Option String := none
  entities : List String := []
  routing : Option QueryRouting := none

/-- Body of a successful `POST /chat` response. -/
structure ChatResponse where
  response : String
  data : Option ResultEnvelope := none
  query_info : Option QueryInfo := none
  conversation_id : String := "default"

/-- Embedding of `ChatService.sendMessage`: the `try/catch` merely logs
and rethrows, so the outcome is exactly the interceptor's. -/
def ChatService.sendMessage (transport : Except AxiosError ChatResponse) :
    Except GatewayError ChatResponse :=
  interceptResponse transport

/-- Embedding of `ChatService.getHealth` over an opaque payload. -/
def ChatService.getHealth {α : Type} (transport : Except AxiosError α) :
    Except GatewayError α :=
  interceptResponse transport

/-- Embedding of `ChatService.getElasticsearchSchema` over an opaque
payload. -/
def ChatService.getElasticsearchSchema {α : Type}
    (transport : Except AxiosError α) : Except GatewayError α :=
  interceptResponse transport

/-- Embedding of `ChatService.getPostgreSQLSchema` over an opaque
payload. -/
def ChatService.getPostgreSQLSchema {α : Type}
    (transport : Except AxiosError α) : Except GatewayError α :=
  interceptResponse transport

/-- Embedding of `ChatService.checkBackendAvailability`: true on any
non-exception response, false otherwise (the error is swallowed). -/
def ChatService.checkBackendAvailability {α : Type}
    (transport : Except AxiosError α) : Bool :=
  match interceptResponse transport with
  | .ok _ => true
  | .error _ => false

/-- Sender of a conversation message. -/
inductive MsgType where
  | user : MsgType
  | bot : MsgType
  deriving DecidableEq, Repr

/-- One message in the conversation log of `ChatInterface`. -/
structure Message where
  id : Nat
  type : MsgType
  content : String
  data : Option ResultEnvelope := none
  queryInfo : Option QueryInfo := none
  error : Bool := false
  timestamp : Nat

/-- State of the `ChatInterface` component: ordered message log, pending
input text and the single loading flag. -/
structure ChatState where
  messages : List Message
  inputValue : String
  isLoading : Bool

/-- The fixed user-facing apology string appended on any gateway
failure. -/
def apologyText : String :=
  "Sorry, I encountered an error processing your request. Please try again."

/-- Embedding of `handleSendMessage` from `ChatInterface.js`, collapsing
the awaited gateway call into its outcome. Guard: empty-after-trim input
or an in-flight turn is a no-op. Otherwise the user message is appended
and the input cleared; on success a bot message carrying the response
text, envelope and query info is appended; on failure a bot message with
the fixed apology text and `error = true` is appended. Either way the
loading flag ends cleared (the `finally` block). `now` supplies
`Date.now()`. -/
def handleSendMessage (st : ChatState)
    (outcome : Except GatewayError ChatResponse) (now : Nat) : ChatState :=
  if jsTrim st.inputValue == "" || st.isLoading then st
  else
    let userMessage : Message :=
      { id := now, type := .user, content := st.inputValue, timestamp := now }
    let st1 : ChatState :=
      { st with messages := st.messages ++ [userMessage], inputValue := ""
                isLoading := true }
    match outcome with
    | .ok response =>
        let botMessage : Message :=
          { id := now + 1, type := .bot, content := response.response
            data := response.data, queryInfo := response.query_info
            timestamp := now }
        { st1 with messages := st1.messages ++ [botMessage], isLoading := false }
    | .error _ =>
        let errorMessage : Message :=
          { id := now + 1, type := .bot, content := apologyText
            error := true, timestamp := now }
        { st1 with messages := st1.messages ++ [errorMessage], isLoading := false }

/-- Embedding of `handleQuickQuery`: prefill the input without touching
the conversation state. -/
def handleQuickQuery (st : ChatState) (query : String) : ChatState :=
  { st with inputValue := query }

/-!
Specification-side definitions for the table-column refinement (claim
about `getTableColumns`): the spec describes the column set as the first
6 distinct non-private field names in first-seen row order.
-/

/-- First-seen deduplication with an explicit seen accumulator, written
from the spec's words: keep a name the first time it appears, drop later
repetitions. -/
def firstSeenAux (seen : List String) : List String → List String
  | [] => []
  | k :: ks =>
      if seen.contains k then firstSeenAux seen ks
      else k :: firstSeenAux (seen ++ [k]) ks

/-- Distinct names of a list in first-seen order (spec-side). -/
def firstSeenDistinct (l : List String) : List String :=
  firstSeenAux [] l

/-- Field names of the displayed rows in row order, with names starting
with the private-field marker removed (spec-side). -/
def displayedFieldNames (rows : List Row) : List String :=
  rows.flatMap (fun row => (row.map Prod.fst).filter (fun k => !(strStarts k "_")))

theorem foldl_addKeyJS (l : List String) :
    ∀ acc, l.foldl addKeyJS acc = acc ++ firstSeenAux acc l := by
  induction l with
  | nil => intro acc; simp [firstSeenAux]
  | cons k ks ih =>
      intro acc
      simp only [List.foldl_cons, firstSeenAux]
      by_cases hm : k ∈ acc
      · have hc : acc.contains k = true := List.elem_iff.mpr hm
        have h1 : addKeyJS acc k = acc := by simp [addKeyJS, hc, hm]
        rw [h1, ih acc, if_pos hc]
      · have hc : acc.contains k = false := by
          cases hcc : acc.contains k
          · rfl
          · exact absurd (List.elem_iff.mp hcc) hm
        have h1 : addKeyJS acc k = acc ++ [k] := by simp [addKeyJS, hc, hm]
        rw [h1, ih (acc ++ [k]), if_neg (fun hcc => hm (List.elem_iff.mp hcc))]
        simp

theorem inner_fold_eq (row : Row) :
    ∀ acc, row.foldl
        (fun acc kv => if strStarts kv.1 "_" then acc else addKeyJS acc kv.1) acc =
      ((row.map Prod.fst).filter (fun k => !(strStarts k "_"))).foldl addKeyJS acc := by
  induction row with
  | nil => intro acc; rfl
  | cons kv rest ih =>
      intro acc
      cases h : strStarts kv.1 "_" with
      | true => simp [h, ih]
      | false => simp [h, ih]

theorem outer_fold_eq (rows : List Row) :
    ∀ acc, rows.foldl
        (fun acc row => row.foldl
          (fun acc kv => if strStarts kv.1 "_" then acc else addKeyJS acc kv.1) acc)
        acc =
      (displayedFieldNames rows).foldl addKeyJS acc := by
  induction rows with
  | nil => intro acc; rfl
  | cons row rest ih =>
      intro acc
      simp only [List.foldl_cons, displayedFieldNames, List.flatMap_cons,
        List.foldl_append]
      rw [inner_fold_eq row acc, ih]
      rfl

theorem getTableColumns_eq_firstSeen (rows : List Row) :
    getTableColumns rows = (firstSeenDistinct (displayedFieldNames rows)).take 6 := by
  cases rows with
  | nil => rfl
  | cons r rest =>
      simp only [getTableColumns, List.isEmpty_cons, Bool.false_eq_true, if_false]
      rw [outer_fold_eq (r :: rest) [], foldl_addKeyJS]
      rfl

theorem firstSeenAux_mem (l : List String) :
    ∀ seen (k : String), k ∈ firstSeenAux seen l ↔ (k ∈ l ∧ k ∉ seen) := by
  induction l with
  | nil => intro seen k; simp [firstSeenAux]
  | cons a as ih =>
      intro seen k
      simp only [firstSeenAux]
      by_cases ha : a ∈ seen
      · rw [if_pos (List.elem_iff.mpr ha), ih seen k]
        simp only [List.mem_cons]
        constructor
        · rintro ⟨hk, hns⟩; exact ⟨Or.inr hk, hns⟩
        · rintro ⟨hk | hk, hns⟩
          · exact absurd (hk ▸ ha) hns
          · exact ⟨hk, hns⟩
      · rw [if_neg (fun hc => ha (List.elem_iff.mp hc))]
        simp only [List.mem_cons, ih (seen ++ [a]) k, List.mem_append,
          List.mem_singleton]
        constructor
        · rintro (rfl | ⟨hk, hns⟩)
          · exact ⟨Or.inl rfl, ha⟩
          · exact ⟨Or.inr hk, fun hs => hns (Or.inl hs)⟩
        · rintro ⟨hk | hk, hns⟩
          · exact Or.inl hk
          · by_cases hka : k = a
            · exact Or.inl hka
            · refine Or.inr ⟨hk, ?_⟩
              rintro (hs | hs | hs)
              · exact hns hs
              · exact hka hs
              · cases hs

theorem firstSeenAux_nodup (l : List String) :
    ∀ seen, (firstSeenAux seen l).Nodup := by
  induction l with
  | nil => intro seen; simp [firstSeenAux]
  | cons a as ih =>
      intro seen
      simp only [firstSeenAux]
      by_cases ha : a ∈ seen
      · rw [if_pos (List.elem_iff.mpr ha)]
        exact ih seen
      · rw [if_neg (fun hc => ha (List.elem_iff.mp hc))]
        refine List.nodup_cons.mpr ⟨?_, ih (seen ++ [a])⟩
        intro hmem
        have := (firstSeenAux_mem as (seen ++ [a]) a).mp hmem
        exact this.2 (List.mem_append.mpr (Or.inr (List.mem_singleton.mpr rfl)))

theorem firstSeenDistinct_mem (l : List String) (k : String) :
    k ∈ firstSeenDistinct l ↔ k ∈ l := by
  unfold firstSeenDistinct
  rw [firstSeenAux_mem]
  simp

theorem firstSeenDistinct_nodup (l : List String) :
    (firstSeenDistinct l).Nodup :=
  firstSeenAux_nodup l []

/-- Claim C1: on gateway failure of any kind, `handleSendMessage` appends
exactly one assistant message with `error = true`, the fixed apology text
and no result envelope, and clears the loading flag; the resulting state
is the same for every failure, so neither the error kind nor its
diagnostic text can reach the transcript. -/
theorem gateway_failure_fixed_apology
    (st : ChatState) (e : GatewayError) (now : Nat)
    (hinput : jsTrim st.inputValue ≠ "") (hload : st.isLoading = false) :
    handleSendMessage st (.error e) now =
      { messages := st.messages ++
          [{ id := now, type := .user, content := st.inputValue,
             data := none, queryInfo := none, error := false, timestamp := now },
           { id := now + 1, type := .bot, content := apologyText,
             data := none, queryInfo := none, error := true, timestamp := now }]
        inputValue := ""
        isLoading := false } ∧
    ∀ e' : GatewayError,
      handleSendMessage st (.error e') now = handleSendMessage st (.error e) now := by
  have hguard : (jsTrim st.inputValue == "" || st.isLoading) = false := by
    simp [hinput, hload]
  constructor
  · simp [handleSendMessage, hguard]
  · intro e'
    simp [handleSendMessage, hguard]

/-- Witness for claim C1 at a concrete state and error. -/
theorem gateway_failure_fixed_apology_witness :
    handleSendMessage ⟨[], "hi", false⟩ (.error .unreachable) 5 =
      { messages :=
          [{ id := 5, type := .user, content := "hi",
             data := none, queryInfo := none, error := false, timestamp := 5 },
           { id := 6, type := .bot, content := apologyText,
             data := none, queryInfo := none, error := true, timestamp := 5 }]
        inputValue := ""
        isLoading := false } :=
  (gateway_failure_fixed_apology ⟨[], "hi", false⟩ .unreachable 5
    (by decide) rfl).1

/-- Claim C2: submitting with empty or whitespace-only input, or while a
turn is loading, is a no-op on the whole component state — nothing is
appended and nothing is queued. -/
theorem submit_guard_noop (st : ChatState)
    (outcome : Except GatewayError ChatResponse) (now : Nat)
    (h : jsTrim st.inputValue = "" ∨ st.isLoading = true) :
    handleSendMessage st outcome now = st := by
  rcases h with h | h
  · simp [handleSendMessage, h]
  · simp [handleSendMessage, h]

/-- Witness for claim C2 on whitespace-only input and on a loading
state. -/
theorem submit_guard_noop_witness :
    handleSendMessage ⟨[], "  \n ", false⟩ (.error .notFound) 3 =
      ⟨[], "  \n ", false⟩ ∧
    handleSendMessage ⟨[], "query", true⟩ (.error .notFound) 3 =
      ⟨[], "query", true⟩ :=
  ⟨submit_guard_noop ⟨[], "  \n ", false⟩ (.error .notFound) 3 (Or.inl (by decide)),
   submit_guard_noop ⟨[], "query", true⟩ (.error .notFound) 3 (Or.inr rfl)⟩

/-- Claim C4 (failing input): the currency branch of `formatCellValue`
keeps JavaScript operator precedence, so a non-numeric value in a
`salary` column is formatted currency-style — the string `"abc"` in
column `salary` renders `"$abc"`, not the plain value. The numeric
scenario from the spec does hold: `87234.5` in `salary` renders with a
leading symbol and thousands separators. -/
theorem currency_precedence_failing_input :
    formatCellValue (fun _ => none)
      (some (.num ⟨false, 87234, "5"⟩)) "salary" = "$87,234.5" ∧
    formatCellValue (fun _ => none) (some (.str "abc")) "salary" = "$abc" ∧
    formatCellValue (fun _ => none) (some (.str "abc")) "salary" ≠
      CellValue.toStr (.str "abc") := by
  refine ⟨by decide, by decide, by decide⟩

/-- Claim C5: for a string cell matching the date-with-time-and-zone
test, `formatCellValue` returns the locale date when the conversion
succeeds and the original string unchanged when it fails; the formatter
is total. The `new Date(value).toLocaleDateString()` call is the oracle
`jsDate`, with `none` standing for a thrown conversion. -/
theorem date_cell_formatting (jsDate : String → Option String)
    (s column : String)
    (hT : strContains s "T" = true) (hZ : strContains s "Z" = true) :
    (∀ d, jsDate s = some d →
      formatCellValue jsDate (some (.str s)) column = d) ∧
    (jsDate s = none → formatCellValue jsDate (some (.str s)) column = s) := by
  constructor
  · intro d hd
    simp [formatCellValue, hT, hZ, hd]
  · intro hd
    simp [formatCellValue, hT, hZ, hd]

/-- Witness for claim C5 on a concrete ISO-like date string, with a
succeeding and a failing conversion oracle. -/
theorem date_cell_formatting_witness :
    formatCellValue (fun _ => some "1/1/2024")
      (some (.str "2024-01-01T00:00:00Z")) "created_at" = "1/1/2024" ∧
    formatCellValue (fun _ => none)
      (some (.str "2024-01-01T00:00:00Z")) "created_at" =
      "2024-01-01T00:00:00Z" :=
  ⟨(date_cell_formatting (fun _ => some "1/1/2024") "2024-01-01T00:00:00Z"
      "created_at" (by decide) (by decide)).1 "1/1/2024" rfl,
   (date_cell_formatting (fun _ => none) "2024-01-01T00:00:00Z"
      "created_at" (by decide) (by decide)).2 rfl⟩

/-- Claim C6 (counterexample): an HTTP 503 failure is not mapped to
`serverError` by the interceptor — it passes through as `unknown` with
its original message, refuting "every HTTP status in the 5xx range maps
to ServerError". -/
theorem interceptor_503_not_serverError :
    normalizeError ⟨none, some 503, "Service Unavailable"⟩ =
      .unknown "Service Unavailable" ∧
    normalizeError ⟨none, some 503, "Service Unavailable"⟩ ≠ .serverError := by
  refine ⟨by decide, by decide⟩

/-- Claim C6 (amended): the gateway client normalizes every transport
failure in the one response interceptor, and the mapping is:
connection-refused to `unreachable`, HTTP status exactly 500 to
`serverError`, HTTP 404 to `notFound`, and everything else passes
through as `unknown` carrying the original diagnostic message; every
service method observes this same central mapping. -/
theorem interceptor_taxonomy_amended :
    (∀ ax : AxiosError,
      (ax.code = some "ECONNREFUSED" → normalizeError ax = .unreachable) ∧
      (ax.code ≠ some "ECONNREFUSED" → ax.status = some 500 →
        normalizeError ax = .serverError) ∧
      (ax.code ≠ some "ECONNREFUSED" → ax.status ≠ some 500 →
        ax.status = some 404 → normalizeError ax = .notFound) ∧
      (ax.code ≠ some "ECONNREFUSED" → ax.status ≠ some 500 →
        ax.status ≠ some 404 → normalizeError ax = .unknown ax.message)) ∧
    (∀ t : Except AxiosError ChatResponse,
      ChatService.sendMessage t = interceptResponse t) ∧
    (∀ (α : Type) (t : Except AxiosError α),
      ChatService.getHealth t = interceptResponse t ∧
      ChatService.getElasticsearchSchema t = interceptResponse t ∧
      ChatService.getPostgreSQLSchema t = interceptResponse t) := by
  refine ⟨fun ax => ⟨?_, ?_, ?_, ?_⟩, fun t => rfl, fun α t => ⟨rfl, rfl, rfl⟩⟩
  · intro h
    simp [normalizeError, h]
  · intro h1 h2
    simp [normalizeError, h1, h2]
  · intro h1 h2 h3
    simp [normalizeError, h1, h2, h3]
  · intro h1 h2 h3
    simp [normalizeError, h1, h2, h3]

/-- Witness for the amended claim C6 on a concrete 500 failure. -/
theorem interceptor_taxonomy_amended_witness :
    normalizeError ⟨none, some 500, "boom"⟩ = .serverError :=
  (interceptor_taxonomy_amended.1 ⟨none, some 500, "boom"⟩).2.1 (by decide) rfl

/-- Claim C3: the table view displays at most the first 10 rows, and its
column list is exactly the first 6 distinct non-private field names of
the displayed rows in first-seen row order (so never more than 6
columns, and never sorted by name). -/
theorem table_rows_and_columns (jsDate : String → Option String)
    (e : ResultEnvelope) (rs : List Row)
    (hres : e.results = some rs) (hne : rs ≠ []) :
    ∃ t : TableView, renderTable jsDate e = .table t ∧
      t.cellRows.length ≤ 10 ∧
      t.cellRows = (rs.take 10).map (fun row =>
        t.columns.map (fun col => formatCellValue jsDate (rowGet row col) col)) ∧
      t.columns.length ≤ 6 ∧
      t.columns = (firstSeenDistinct (displayedFieldNames (rs.take 10))).take 6 ∧
      (firstSeenDistinct (displayedFieldNames (rs.take 10))).Nodup ∧
      (∀ k, k ∈ firstSeenDistinct (displayedFieldNames (rs.take 10)) ↔
        k ∈ displayedFieldNames (rs.take 10)) := by
  have hcols := getTableColumns_eq_firstSeen (rs.take 10)
  refine ⟨{ columns := getTableColumns (rs.take 10)
            headers := (getTableColumns (rs.take 10)).map formatColumnName
            classes := (getTableColumns (rs.take 10)).map getColumnClass
            cellRows := (rs.take 10).map (fun row =>
              (getTableColumns (rs.take 10)).map
                (fun col => formatCellValue jsDate (rowGet row col) col))
            shownCount := (rs.take 10).length
            totalCount := match e.total_results with
                          | some n => n
                          | none => ⟨false, (rs.take 10).length, ""⟩ },
    ?_, ?_, rfl, ?_, ?_, firstSeenDistinct_nodup _, fun k => firstSeenDistinct_mem _ k⟩
  · unfold renderTable
    rw [hres]
    dsimp only
    rw [if_neg (fun hc => hne (List.isEmpty_iff.mp hc))]
  · simp only [List.length_map, List.length_take]
    omega
  · rw [hcols]
    simp only [List.length_take]
    omega
  · exact hcols

/-- Witness for claim C3: a concrete results list of two rows whose
columns resolve to the non-private names in first-seen order. -/
theorem table_rows_and_columns_witness :
    (∃ t : TableView,
      renderTable (fun _ => none)
        { results := some [[("id", .num ⟨false, 1, ""⟩), ("_meta", .str "x"),
                            ("name", .str "A")],
                           [("dept", .str "Eng"), ("id", .num ⟨false, 2, ""⟩)]] } =
        .table t ∧
      t.cellRows.length ≤ 10 ∧
      t.cellRows = (([[("id", .num ⟨false, 1, ""⟩), ("_meta", .str "x"),
                       ("name", .str "A")],
                      [("dept", .str "Eng"), ("id", .num ⟨false, 2, ""⟩)]] :
          List Row).take 10).map (fun row =>
        t.columns.map (fun col =>
          formatCellValue (fun _ => none) (rowGet row col) col)) ∧
      t.columns.length ≤ 6 ∧
      t.columns = (firstSeenDistinct (displayedFieldNames
        (([[("id", .num ⟨false, 1, ""⟩), ("_meta", .str "x"), ("name", .str "A")],
           [("dept", .str "Eng"), ("id", .num ⟨false, 2, ""⟩)]] :
             List Row).take 10))).take 6 ∧
      (firstSeenDistinct (displayedFieldNames
        (([[("id", .num ⟨false, 1, ""⟩), ("_meta", .str "x"), ("name", .str "A")],
           [("dept", .str "Eng"), ("id", .num ⟨false, 2, ""⟩)]] :
             List Row).take 10))).Nodup ∧
      (∀ k, k ∈ firstSeenDistinct (displayedFieldNames
        (([[("id", .num ⟨false, 1, ""⟩), ("_meta", .str "x"), ("name", .str "A")],
           [("dept", .str "Eng"), ("id", .num ⟨false, 2, ""⟩)]] :
             List Row).take 10)) ↔
        k ∈ displayedFieldNames
        (([[("id", .num ⟨false, 1, ""⟩), ("_meta", .str "x"), ("name", .str "A")],
           [("dept", .str "Eng"), ("id", .num ⟨false, 2, ""⟩)]] :
             List Row).take 10))) ∧
    getTableColumns
      (([[("id", .num ⟨false, 1, ""⟩), ("_meta", .str "x"), ("name", .str "A")],
         [("dept", .str "Eng"), ("id", .num ⟨false, 2, ""⟩)]] :
           List Row).take 10) = ["id", "name", "dept"] :=
  ⟨table_rows_and_columns (fun _ => none) _ _ rfl (by simp), by decide⟩

/-- Claim C7: clicking a view-mode button updates `viewMode` exactly when
that mode is eligible (table needs non-empty `results`, timeline needs
non-empty `timeline`, summary is always offered); an ineligible mode is a
no-op and no error, and the raw toggle flips `showRawData`
unconditionally. -/
theorem view_mode_eligibility (e : ResultEnvelope) (st : PresentationState)
    (m : ViewMode) :
    (modeButtonShown e m = true →
      dispatch e st (.clickMode m) = { st with viewMode := m }) ∧
    (modeButtonShown e m = false → dispatch e st (.clickMode m) = st) ∧
    dispatch e st .toggleRaw = { st with showRawData := !st.showRawData } ∧
    modeButtonShown e .summary = true ∧
    (modeButtonShown e .table = true ↔ ∃ rs, e.results = some rs ∧ rs ≠ []) ∧
    (modeButtonShown e .timeline = true ↔ ∃ tl, e.timeline = some tl ∧ tl ≠ []) := by
  refine ⟨fun h => by simp [dispatch, h], fun h => by simp [dispatch, h], rfl, rfl,
    ?_, ?_⟩
  · cases hre : e.results with
    | none => simp [modeButtonShown, hre]
    | some rs => simp [modeButtonShown, hre, List.isEmpty_iff]
  · cases htl : e.timeline with
    | none => simp [modeButtonShown, htl]
    | some tl => simp [modeButtonShown, htl, List.isEmpty_iff]

/-- Witness for claim C7: the table mode is honored on an envelope with a
row, and ignored on an envelope without results. -/
theorem view_mode_eligibility_witness :
    dispatch { results := some [[("id", .num ⟨false, 1, ""⟩)]] } {}
        (.clickMode .table) =
      { viewMode := .table, showRawData := false } ∧
    dispatch { summary := some "s" } { viewMode := .summary, showRawData := false }
        (.clickMode .table) =
      { viewMode := .summary, showRawData := false } :=
  ⟨(view_mode_eligibility { results := some [[("id", .num ⟨false, 1, ""⟩)]] } {}
      .table).1 rfl,
   (view_mode_eligibility { summary := some "s" }
      { viewMode := .summary, showRawData := false } .table).2.1 rfl⟩

/-- Claim C8 (counterexample): an envelope whose only field is a present
but empty `results` list has every field absent or empty, yet the
component still renders output — the key-count guard only suppresses an
envelope with no keys at all. -/
theorem empty_fields_envelope_still_renders :
    (render (fun _ => none) (some { results := some [] }) {}).isSome = true := by
  rfl

/-- Claim C8 (amended): the presenter renders nothing exactly when the
`data` prop is absent or the envelope object has no fields present at
all; an envelope with present-but-empty fields is not suppressed. -/
theorem render_suppression_amended (jsDate : String → Option String)
    (st : PresentationState) :
    render jsDate none st = none ∧
    ∀ e : ResultEnvelope, (render jsDate (some e) st = none ↔ e.presentKeys = 0) := by
  refine ⟨rfl, fun e => ?_⟩
  unfold render
  by_cases h : e.presentKeys = 0
  · simp [h]
  · simp [h]

/-- Witness for the amended claim C8: the truly keyless envelope is
suppressed. -/
theorem render_suppression_amended_witness :
    render (fun _ => none) (some ({} : ResultEnvelope)) {} = none :=
  ((render_suppression_amended (fun _ => none) {}).2 {}).mpr rfl

/-- Claim C9: toggling the raw view on and then off restores the exact
previous presentation state, so the previously selected view mode renders
bit-for-bit the same; `viewMode` is stored independently and never reset
by the raw toggle. -/
theorem raw_toggle_roundtrip (jsDate : String → Option String)
    (e : ResultEnvelope) (st : PresentationState) :
    dispatch e (dispatch e st .toggleRaw) .toggleRaw = st ∧
    (dispatch e st .toggleRaw).viewMode = st.viewMode ∧
    render jsDate (some e) (dispatch e (dispatch e st .toggleRaw) .toggleRaw) =
      render jsDate (some e) st := by
  have h : dispatch e (dispatch e st .toggleRaw) .toggleRaw = st := by
    cases st
    simp [dispatch]
  exact ⟨h, rfl, by rw [h]⟩

/-- Claim C10: in the timeline view each bucket renders at most the first
2 items, each sample being the first 100 characters of the item's JSON
serialization with the ellipsis marker appended unconditionally. -/
theorem timeline_samples (e : ResultEnvelope) (tl : List TimelineBucket)
    (htl : e.timeline = some tl) (hne : tl ≠ []) :
    renderTimeline e = some (tl.map renderBucket) ∧
    ∀ b ∈ tl, (renderBucket b).samples.length ≤ 2 ∧
      (renderBucket b).samples = ((b.items.getD []).take 2).map
        (fun sample => strTake (jsonStringify sample) 100 ++ "...") := by
  constructor
  · unfold renderTimeline
    rw [htl]
    dsimp only
    rw [if_neg (fun hc => hne (List.isEmpty_iff.mp hc))]
  · intro b _
    constructor
    · cases hb : b.items with
      | none => simp [renderBucket, hb]
      | some items =>
          cases items with
          | nil => simp [renderBucket, hb]
          | cons x xs =>
              simp only [renderBucket, hb, List.isEmpty_cons, Bool.false_eq_true,
                if_false, List.length_map, List.length_take]
              omega
    · cases hb : b.items with
      | none => simp [renderBucket, hb]
      | some items =>
          cases items with
          | nil => simp [renderBucket, hb]
          | cons x xs => simp [renderBucket, hb]

/-- Witness for claim C10: a one-bucket timeline whose single short item
serializes to `1` and renders as `1...` — the marker is appended even
though the serialization is far below 100 characters. -/
theorem timeline_samples_witness :
    renderTimeline
        { timeline := some [⟨"2024-01-01", ⟨false, 3, ""⟩,
            some [Json.num ⟨false, 1, ""⟩]⟩] } =
      some (([⟨"2024-01-01", ⟨false, 3, ""⟩, some [Json.num ⟨false, 1, ""⟩]⟩] :
        List TimelineBucket).map renderBucket) ∧
    ([⟨"2024-01-01", ⟨false, 3, ""⟩, some [Json.num ⟨false, 1, ""⟩]⟩] :
        List TimelineBucket).map renderBucket =
      [⟨"2024-01-01", ⟨false, 3, ""⟩, ["1..."]⟩] :=
  ⟨(timeline_samples _ _ rfl (by simp)).1, by decide⟩

end DualDb
